import Mathlib

/-!
Shallow embedding of `src/datacontract/export/odps_export.py`, the
Contract-to-Product mapper `to_odps`, together with proofs about the
properties of the mapping.

The destination document is modelled as a JSON/YAML-like tree `J`;
Python dicts become association lists in insertion order.  The source
document type `DataContractSpecification` is not part of the exporter
file, so its shape is modelled from the specification's data-model
section; duck-typed `hasattr` checks on optional attributes are rendered
as presence of the corresponding `Option` field, and Python truthiness
of an optional string as "present and non-empty".
-/

namespace ODPS

/-- JSON/YAML-like values built by the mapper.  Objects are association
lists keeping insertion order, matching Python `dict` semantics. -/
inductive J where
  | null : J
  | str : String → J
  | arr : List J → J
  | obj : List (String × J) → J

/-- First-match association-list lookup: Python `d[k]` / `k in d`. -/
def lookupA : List (String × J) → String → Option J
  | [], _ => none
  | (k', v) :: rest, k => if k' = k then some v else lookupA rest k

/-- Key lookup on an object value. -/
def jget (j : J) (k : String) : Option J :=
  match j with
  | .obj fs => lookupA fs k
  | _ => none

/-- Key lookup defaulting to `null`. -/
def jgetD (j : J) (k : String) : J :=
  (jget j k).getD .null

/-- The keys of an object value, in insertion order. -/
def jkeys (j : J) : List String :=
  match j with
  | .obj fs => fs.map Prod.fst
  | _ => []

/-- Python `x or d` on an optional string: `None` and `""` are falsy. -/
def pyOr (o : Option String) (d : String) : String :=
  match o with
  | none => d
  | some s => if s = "" then d else s

/-- Python `str.capitalize()`: first character upper-cased, the rest
lower-cased. -/
def pyCapitalize (s : String) : String :=
  match s.data with
  | [] => ""
  | c :: cs => String.mk (c.toUpper :: cs.map Char.toLower)

/-- Modelled from the spec (§3): contact of `info` (name, email, url). -/
structure Contact where
  name : Option String := none
  email : Option String := none
  url : Option String := none
  deriving DecidableEq, Repr

/-- Modelled from the spec (§3): the `info` section of the source
document (title, description, version, status, owner, optional
contact). -/
structure Info where
  title : Option String := none
  description : Option String := none
  version : Option String := none
  status : Option String := none
  owner : Option String := none
  contact : Option Contact := none
  deriving DecidableEq, Repr

/-- Modelled from the spec (§3): a server descriptor (type, format,
location/schema reference, endpoint URL, description). -/
structure Server where
  type : Option String := none
  format : Option String := none
  location : Option String := none
  endpointURL : Option String := none
  description : Option String := none
  deriving DecidableEq, Repr

/-- Modelled from the spec (§3): a quality rule attached to a model or
field (type tag, description, optional numeric constraints). -/
structure QualityRule where
  type : Option String := none
  description : Option String := none
  mustBe : Option Int := none
  mustBeGreaterThan : Option Int := none
  mustBeGreaterThanOrEqualTo : Option Int := none
  deriving DecidableEq, Repr

/-- Modelled from the spec (§3): a field descriptor (type, description,
optional format, optional quality-rule sequence). -/
structure Field where
  type : Option String := none
  description : Option String := none
  format : Option String := none
  quality : List QualityRule := []
  deriving DecidableEq, Repr

/-- Modelled from the spec (§3): a model descriptor (description and an
ordered mapping from field name to field descriptor). -/
structure Model where
  description : Option String := none
  fields : List (String × Field) := []
  deriving DecidableEq, Repr

/-- Modelled from the spec (§3): one service-level sub-object with its
dimension-specific attributes. -/
structure ServiceLevel where
  description : Option String := none
  percentage : Option String := none
  threshold : Option String := none
  period : Option String := none
  interval : Option String := none
  unit : Option String := none
  deriving DecidableEq, Repr

/-- The `servicelevels` attribute as the exporter duck-types it
(line 140 of the source): either a dict-like mapping (it has `items`)
or a single service-level object. -/
inductive ServiceLevels where
  | dict (entries : List (String × ServiceLevel))
  | single (sl : ServiceLevel)
  deriving DecidableEq, Repr

/-- Modelled from the spec: legacy top-level quality object with a
`type` tag and a free-text `specification`, as read by lines 117-130. -/
structure TopQuality where
  type : Option String := none
  specification : Option String := none
  deriving DecidableEq, Repr

/-- Modelled from the spec (§3): the source data-contract document.
`toDict` models the external `to_dict()` serialization method
(`none` renders the `hasattr` check on line 43 false). -/
structure DataContractSpecification where
  id : Option String := none
  info : Info := {}
  tags : Option (List String) := none
  servers : List (String × Server) := []
  models : List (String × Model) := []
  quality : Option TopQuality := none
  servicelevels : Option ServiceLevels := none
  toDict : Option J := none

/-- Python truthiness of the `servicelevels` attribute (line 136): a
dict is truthy when non-empty, a single object is always truthy. -/
def svcTruthy : Option ServiceLevels → Bool
  | none => false
  | some (.dict es) => !es.isEmpty
  | some (.single _) => true

/-- Lines 39-44: the embedded `contract` object. -/
def contractSection (s : DataContractSpecification) : J :=
  .obj [
    ("id", .str (match s.id with | some i => i | none => "")),
    ("type", .str "DCS"),
    ("contractVersion", .str "1.1.0"),
    ("spec", match s.toDict with | some d => d | none => .obj [])]

/-- Lines 46-56 and 111-115: the `details.en` section; when `models` is
non-empty, `metadata.schemas` is appended to it. -/
def detailsEnSection (s : DataContractSpecification) (schemas : List J) : List (String × J) :=
  let base : List (String × J) := [
    ("name", .str (pyOr s.info.title "")),
    ("description", .str (pyOr s.info.description "")),
    ("productVersion", .str (pyOr s.info.version "1.0.0")),
    ("status", .str (match s.info.status with | some st => st | none => "active")),
    ("visibility", .str "public"),
    ("tags", .arr ((match s.tags with | some ts => ts | none => []).map .str)),
    ("categories", .arr [])]
  if s.models.isEmpty then base
  else base ++ [("metadata", .obj [("schemas", .arr schemas)])]

/-- Lines 57-60: the `dataHolder` section. -/
def dataHolderSection (s : DataContractSpecification) : J :=
  .obj [("description", .str (match s.info.owner with | some o => o | none => ""))]

/-- Lines 64-69: `support` is added only when a contact is present. -/
def supportSection (c : Option Contact) : List (String × J) :=
  match c with
  | none => []
  | some c => [("support", .obj [
      ("email", .str (match c.email with | some e => e | none => "")),
      ("documentationURL", .str (match c.url with | some u => u | none => ""))])]

/-- Lines 71-84: `dataAccess` from the first server, defaulting to
`API`/`JSON`. -/
def dataAccessSection (servers : List (String × Server)) : J :=
  match servers with
  | (_, first_server) :: _ => .obj [
      ("type", .str (match first_server.type with | some t => t | none => "API")),
      ("format", .str (match first_server.format with | some f => f | none => "JSON"))]
  | [] => .obj [("type", .str "API"), ("format", .str "JSON")]

/-- Lines 93-103: one field entry of a schema; `format` is added only
when present and non-empty (Python truthiness on line 100). -/
def field_info (field_name : String) (f : Field) : J :=
  let base : List (String × J) := [
    ("name", .str field_name),
    ("description", .str (match f.description with | some d => d | none => "")),
    ("type", .str (match f.type with | some t => t | none => "string"))]
  match f.format with
  | some fv => if fv = "" then .obj base else .obj (base ++ [("format", .str fv)])
  | none => .obj base

/-- Lines 90-109: one schema entry per model. -/
def modelSchema (entry : String × Model) : J :=
  .obj [
    ("name", .str entry.1),
    ("description", .str (match entry.2.description with | some d => d | none => "")),
    ("fields", .arr (entry.2.fields.map (fun fe => field_info fe.1 fe.2)))]

/-- Lines 117-133: the `dataQuality` section, emitted only when the
top-level quality object is present with a truthy `specification`. -/
def qualitySection (q : Option TopQuality) : List (String × J) :=
  match q with
  | none => []
  | some q =>
    match q.specification with
    | none => []
    | some sp =>
      if sp = "" then []
      else [("dataQuality", .arr [.obj [
        ("dimension", .str "Accuracy"),
        ("displaytitle", .arr [.obj [("en", .str "Data Quality")]]),
        ("monitoring", .obj [
          ("type", .str (match q.type with | some t => t | none => "custom")),
          ("spec", .str sp)])]])]

/-- Lines 149-166: one SLA item for a service-level entry; `objective`
and `unit` come from `percentage` (unit literal `"percentage"`) else
`threshold` (unit literal `"hours"`), else are absent. -/
def slaItem (sla_key : String) (sla : ServiceLevel) : J :=
  let base : List (String × J) := [
    ("dimension", .str (pyCapitalize sla_key)),
    ("displaytitle", .arr [.obj [("en", .str (pyCapitalize sla_key ++ " SLA"))]]),
    ("monitoring", .obj [
      ("type", .str "custom"),
      ("spec", .str (match sla.description with | some d => d | none => ""))])]
  match sla.percentage with
  | some p => .obj (base ++ [("objective", .str p), ("unit", .str "percentage")])
  | none =>
    match sla.threshold with
    | some t => .obj (base ++ [("objective", .str t), ("unit", .str "hours")])
    | none => .obj base

/-- Lines 139-145: a non-mapping `servicelevels` object is wrapped as a
one-entry dict under the key `servicelevel`. -/
def slaEntries : ServiceLevels → List (String × ServiceLevel)
  | .dict es => es
  | .single sl => [("servicelevel", sl)]

/-- Lines 135-169: the `SLA` section. -/
def slaSection (sv : Option ServiceLevels) : List (String × J) :=
  match sv with
  | none => []
  | some v =>
    if svcTruthy (some v) then
      let items := (slaEntries v).map (fun e => slaItem e.1 e.2)
      if items.isEmpty then [] else [("SLA", .arr items)]
    else []

/-- The mapper `to_odps` (lines 23-172), assembled in the dict-insertion
order of the source: `contract`, `details`, `dataHolder`, then `support`
(conditional, line 66), `dataAccess` (always, lines 75/81), `dataQuality`
(conditional, line 133), `SLA` (conditional, line 169); `metadata.schemas`
is appended inside `details.en` on line 115. -/
def to_odps (s : DataContractSpecification) : J :=
  .obj [
    ("version", .str "3.0"),
    ("schema", .str "https://opendataproducts.org/dev/schema/odps.yaml"),
    ("product", .obj (
      [("contract", contractSection s),
       ("details", .obj [("en", .obj (detailsEnSection s (s.models.map modelSchema)))]),
       ("dataHolder", dataHolderSection s)]
      ++ supportSection s.info.contact
      ++ [("dataAccess", dataAccessSection s.servers)]
      ++ qualitySection s.quality
      ++ slaSection s.servicelevels))]

/-- One block of the state-passing rendering: the base structure
(lines 34-62 plus the schema block of lines 86-115, which only reads
`models`).  The Python block contains no assignment to the source
document, so the state component is returned unchanged. -/
def baseStep (s : DataContractSpecification) :
    DataContractSpecification × List (String × J) :=
  (s, [("contract", contractSection s),
       ("details", .obj [("en", .obj (detailsEnSection s (s.models.map modelSchema)))]),
       ("dataHolder", dataHolderSection s)])

/-- State-passing rendering of lines 64-69 (reads `info.contact` only). -/
def supportStep (s : DataContractSpecification) :
    DataContractSpecification × List (String × J) :=
  (s, supportSection s.info.contact)

/-- State-passing rendering of lines 71-84 (reads `servers` only). -/
def accessStep (s : DataContractSpecification) :
    DataContractSpecification × List (String × J) :=
  (s, [("dataAccess", dataAccessSection s.servers)])

/-- State-passing rendering of lines 117-133 (reads `quality` only). -/
def qualityStep (s : DataContractSpecification) :
    DataContractSpecification × List (String × J) :=
  (s, qualitySection s.quality)

/-- State-passing rendering of lines 135-169 (reads `servicelevels`
only). -/
def slaStep (s : DataContractSpecification) :
    DataContractSpecification × List (String × J) :=
  (s, slaSection s.servicelevels)

/-- `to_odps` with the source document threaded through the statement
blocks as explicit state: each block of the Python body only reads the
source, so each step passes the state on unchanged. -/
def to_odps_run (s : DataContractSpecification) :
    DataContractSpecification × J :=
  let (s1, base) := baseStep s
  let (s2, sup) := supportStep s1
  let (s3, da) := accessStep s2
  let (s4, q) := qualityStep s3
  let (s5, sla) := slaStep s4
  (s5, .obj [
    ("version", .str "3.0"),
    ("schema", .str "https://opendataproducts.org/dev/schema/odps.yaml"),
    ("product", .obj (base ++ sup ++ da ++ q ++ sla))])

/-- Top-level keys of the mapper's output. -/
def topKeys (s : DataContractSpecification) : List String :=
  jkeys (to_odps s)

/-- The `product` object of the mapper's output. -/
def productOf (s : DataContractSpecification) : J :=
  jgetD (to_odps s) "product"

/-- Keys of the `product` object of the output. -/
def prodKeys (s : DataContractSpecification) : List String :=
  jkeys (productOf s)

/-- The `details.en` section of the output. -/
def detailsEnOf (s : DataContractSpecification) : J :=
  jgetD (jgetD (productOf s) "details") "en"

/-- The `dataAccess` section of the output. -/
def dataAccessOf (s : DataContractSpecification) : J :=
  jgetD (productOf s) "dataAccess"

/-- The `SLA` section of the output, when present. -/
def slaOf (s : DataContractSpecification) : Option J :=
  jget (productOf s) "SLA"

/-- The `dimension` values of the output's SLA entries, in order. -/
def slaDims (s : DataContractSpecification) : List J :=
  match slaOf s with
  | some (.arr items) => items.map (fun it => jgetD it "dimension")
  | _ => []

/-- The `objective` values of the output's SLA entries (absent keys as
`none`), in order. -/
def slaObjectives (s : DataContractSpecification) : List (Option J) :=
  match slaOf s with
  | some (.arr items) => items.map (fun it => jget it "objective")
  | _ => []

/-- The `unit` values of the output's SLA entries (absent keys as
`none`), in order. -/
def slaUnits (s : DataContractSpecification) : List (Option J) :=
  match slaOf s with
  | some (.arr items) => items.map (fun it => jget it "unit")
  | _ => []

/-- A fully-empty source document: no servers, models, service levels,
contact or quality. -/
def emptySrc : DataContractSpecification := {}

/-- Like `emptySrc` but with a (fully defaulted) contact present. -/
def c1ContactSrc : DataContractSpecification := { info := { contact := some {} } }

/-- Spec-side description of the data-access section, written from the
amended claim: always an object with `type` and `format` taken from the
head of the servers mapping with defaults `API`/`JSON`; later servers
are never consulted. -/
def dataAccessSpec (servers : List (String × Server)) : J :=
  match servers.head? with
  | some kv => .obj [
      ("type", .str (kv.2.type.getD "API")),
      ("format", .str (kv.2.format.getD "JSON"))]
  | none => .obj [("type", .str "API"), ("format", .str "JSON")]

/-- Remove the quality rules of a field descriptor. -/
def stripFieldQuality (f : Field) : Field := { f with quality := [] }

/-- Remove the quality rules of every field of a model. -/
def stripModelQuality (m : Model) : Model :=
  { m with fields := m.fields.map (fun e => (e.1, stripFieldQuality e.2)) }

/-- Remove every model- and field-level quality rule of the source. -/
def stripQualityRules (s : DataContractSpecification) : DataContractSpecification :=
  { s with models := s.models.map (fun e => (e.1, stripModelQuality e.2)) }

/-- Left-biased choice on optional values (the effect of looking a key
up in an appended association list). -/
def oOr (a b : Option J) : Option J :=
  match a with
  | some v => some v
  | none => b

/-- Whitespace tokenizer accumulator: splits a character list on runs of
whitespace, dropping empty tokens (Python `str.split()` with no
separator argument). -/
def wsTokensAux : List Char → List Char → List String
  | [], acc => if acc.isEmpty then [] else [String.mk acc.reverse]
  | c :: rest, acc =>
    if c.isWhitespace then
      (if acc.isEmpty then [] else [String.mk acc.reverse]) ++ wsTokensAux rest []
    else wsTokensAux rest (c :: acc)

/-- Split a string on whitespace into its non-empty tokens. -/
def wsTokens (b : String) : List String := wsTokensAux b.data []

/-- Modelled from the spec: the billing/pricing projection of §4.d,
which is absent from the source file under `src/` (the exporter there
emits no pricing section).  The free-text billing string is split on
whitespace into at most three tokens interpreted positionally as
`(price, currency, unit)`; positions beyond the available token count
are `none`. -/
def parse_billing (b : String) : Option String × Option String × Option String :=
  match wsTokens b with
  | [] => (none, none, none)
  | [p] => (some p, none, none)
  | [p, c] => (some p, some c, none)
  | p :: c :: u :: _ => (some p, some c, some u)

/-- Source whose `servicelevels` dict has a key outside the seven fixed
dimension names and carries a source-side `unit` attribute. -/
def c3Src : DataContractSpecification :=
  { servicelevels := some (.dict
      [("foobar", { threshold := some "P1Y", unit := some "days" })]) }

/-- Source with a single `availability` service level carrying a
percentage. -/
def c3aSrc : DataContractSpecification :=
  { servicelevels := some (.dict
      [("availability", { percentage := some "99.9" })]) }

/-- Source with one server whose schema-reference and endpoint fields
are populated. -/
def c4Src : DataContractSpecification :=
  { servers := [("a", { type := some "s3", format := some "parquet",
                        location := some "s3://bucket/schema.json",
                        endpointURL := some "https://example.com/doc" })] }

/-- Source with a field-level quality rule carrying both
`mustBeGreaterThan = 3` and `mustBeGreaterThanOrEqualTo = 1`, and no
top-level quality object. -/
def c5Src : DataContractSpecification :=
  { models := [("M1", { fields := [("f1",
      { type := some "string",
        quality := [{ mustBeGreaterThan := some 3,
                      mustBeGreaterThanOrEqualTo := some 1 }] })] })] }

/-- Source whose `servicelevels` is a single non-mapping object. -/
def c10Src : DataContractSpecification :=
  { servicelevels := some (.single {}) }

/-- Python truthiness of the guard on lines 118 and 122: a top-level
quality object is present and its `specification` is a non-empty
string. -/
def qualityTruthy : Option TopQuality → Bool
  | none => false
  | some q =>
    match q.specification with
    | none => false
    | some sp => !(sp == "")

/-- Spec-side description of the single emitted data-quality entry,
written from the amended claim: fixed dimension `Accuracy`, fixed
display title, monitoring type from the quality object's `type` tag
defaulting to `custom`, monitoring spec the specification text — and no
`objective` key. -/
def qualityItemSpec (q : TopQuality) (sp : String) : J :=
  .obj [
    ("dimension", .str "Accuracy"),
    ("displaytitle", .arr [.obj [("en", .str "Data Quality")]]),
    ("monitoring", .obj [
      ("type", .str (q.type.getD "custom")),
      ("spec", .str sp)])]

/-- The `dimension` values of the output's data-quality entries, in
order. -/
def dqDims (s : DataContractSpecification) : List J :=
  match jget (productOf s) "dataQuality" with
  | some (.arr items) => items.map (fun it => jgetD it "dimension")
  | _ => []

/-- The `objective` values of the output's data-quality entries (absent
keys as `none`), in order. -/
def dqObjectives (s : DataContractSpecification) : List (Option J) :=
  match jget (productOf s) "dataQuality" with
  | some (.arr items) => items.map (fun it => jget it "objective")
  | _ => []

/-- Source with a top-level quality object carrying a non-empty
specification. -/
def c5qSrc : DataContractSpecification :=
  { quality := some { type := some "sodacl", specification := some "checks" } }

lemma lookupA_append (l1 l2 : List (String × J)) (k : String) :
    lookupA (l1 ++ l2) k = oOr (lookupA l1 k) (lookupA l2 k) := by
  induction l1 with
  | nil => rfl
  | cons a t ih =>
    obtain ⟨k1, v⟩ := a
    by_cases h : k1 = k
    · simp [lookupA, h, oOr]
    · simp [lookupA, h, ih]

lemma support_lookup_none (c : Option Contact) (k : String) (h : ¬ "support" = k) :
    lookupA (supportSection c) k = none := by
  cases c <;> simp [supportSection, lookupA, h]

lemma quality_lookup_none (q : Option TopQuality) (k : String) (h : ¬ "dataQuality" = k) :
    lookupA (qualitySection q) k = none := by
  cases q with
  | none => rfl
  | some q =>
    cases hs : q.specification with
    | none => simp [qualitySection, hs, lookupA]
    | some sp =>
      by_cases hsp : sp = "" <;> simp [qualitySection, hs, hsp, lookupA, h]

lemma quality_lookup_not_truthy (q : Option TopQuality) (h : qualityTruthy q = false) :
    lookupA (qualitySection q) "dataQuality" = none := by
  cases q with
  | none => rfl
  | some q =>
    cases hs : q.specification with
    | none => simp [qualitySection, hs, lookupA]
    | some sp =>
      have hsp : sp = "" := by
        simp [qualityTruthy, hs] at h
        exact h
      simp [qualitySection, hs, hsp, lookupA]

lemma quality_lookup_truthy (q : TopQuality) (sp : String)
    (hs : q.specification = some sp) (hne : sp ≠ "") :
    lookupA (qualitySection (some q)) "dataQuality" =
      some (.arr [qualityItemSpec q sp]) := by
  cases hqt : q.type <;>
    simp [qualitySection, hs, hne, qualityItemSpec, lookupA, hqt]

lemma sla_lookup_none (sv : Option ServiceLevels) (k : String) (h : ¬ "SLA" = k) :
    lookupA (slaSection sv) k = none := by
  cases sv with
  | none => rfl
  | some v =>
    cases v with
    | dict es =>
      cases es with
      | nil => rfl
      | cons a t => simp [slaSection, svcTruthy, slaEntries, lookupA, h]
    | single sl => simp [slaSection, svcTruthy, slaEntries, lookupA, h]

lemma sla_lookup_found (v : ServiceLevels) (hv : svcTruthy (some v) = true) :
    lookupA (slaSection (some v)) "SLA" =
      some (.arr ((slaEntries v).map (fun e => slaItem e.1 e.2))) := by
  cases v with
  | dict es =>
    cases es with
    | nil => simp [svcTruthy] at hv
    | cons a t => simp [slaSection, svcTruthy, slaEntries, lookupA]
  | single sl => simp [slaSection, svcTruthy, slaEntries, lookupA]

lemma productOf_eq (s : DataContractSpecification) :
    productOf s = .obj (
      [("contract", contractSection s),
       ("details", .obj [("en", .obj (detailsEnSection s (s.models.map modelSchema)))]),
       ("dataHolder", dataHolderSection s)]
      ++ supportSection s.info.contact
      ++ [("dataAccess", dataAccessSection s.servers)]
      ++ qualitySection s.quality
      ++ slaSection s.servicelevels) := rfl

lemma prodKeys_eq (s : DataContractSpecification) :
    prodKeys s =
      ["contract", "details", "dataHolder"]
      ++ (supportSection s.info.contact).map Prod.fst
      ++ ["dataAccess"]
      ++ (qualitySection s.quality).map Prod.fst
      ++ (slaSection s.servicelevels).map Prod.fst := by
  rw [prodKeys, productOf_eq]
  simp [jkeys]

lemma slaOf_eq (s : DataContractSpecification) :
    slaOf s = lookupA (slaSection s.servicelevels) "SLA" := by
  rw [slaOf, productOf_eq]
  show lookupA _ "SLA" = _
  rw [lookupA_append, lookupA_append, lookupA_append, lookupA_append]
  rw [support_lookup_none _ _ (by decide), quality_lookup_none _ _ (by decide)]
  simp [lookupA, oOr]

lemma slaItem_dimension (k : String) (sla : ServiceLevel) :
    jgetD (slaItem k sla) "dimension" = J.str (pyCapitalize k) := by
  obtain ⟨d, p, t, per, i, u⟩ := sla
  cases p <;> cases t <;> rfl

lemma slaItem_objective (k : String) (sla : ServiceLevel) :
    jget (slaItem k sla) "objective" =
      (match sla.percentage with
       | some p => some (J.str p)
       | none => match sla.threshold with
         | some t => some (J.str t)
         | none => none) := by
  obtain ⟨d, p, t, per, i, u⟩ := sla
  cases p <;> cases t <;> rfl

lemma slaItem_unit (k : String) (sla : ServiceLevel) :
    jget (slaItem k sla) "unit" =
      (match sla.percentage with
       | some _ => some (J.str "percentage")
       | none => match sla.threshold with
         | some _ => some (J.str "hours")
         | none => none) := by
  obtain ⟨d, p, t, per, i, u⟩ := sla
  cases p <;> cases t <;> rfl

lemma isEmpty_map {α β : Type} (f : α → β) (l : List α) :
    (l.map f).isEmpty = l.isEmpty := by
  cases l <;> rfl

lemma field_info_strip (fn : String) (f : Field) :
    field_info fn (stripFieldQuality f) = field_info fn f := by
  obtain ⟨t, d, fmt, q⟩ := f
  rfl

lemma modelSchema_strip (e : String × Model) :
    modelSchema (e.1, stripModelQuality e.2) = modelSchema e := by
  obtain ⟨k, m⟩ := e
  obtain ⟨d, fs⟩ := m
  have h : (fs.map (fun fe => (fe.1, stripFieldQuality fe.2))).map
      (fun fe => field_info fe.1 fe.2) = fs.map (fun fe => field_info fe.1 fe.2) := by
    rw [List.map_map]
    exact List.map_congr_left fun a _ => field_info_strip a.1 a.2
  simp only [modelSchema, stripModelQuality, h]

/-- C1: for any source whose servicelevels, servers and models are all
empty the mapper raises no error, but the destination is not a complete
skeleton of all sections — the `SLA` and `support` sections are simply
omitted for the fully-empty source, and adding a contact changes the
set of product sections, so the section set depends on how complete the
input is. -/
theorem c1_counterexample :
    ¬ ("SLA" ∈ prodKeys emptySrc) ∧
    ¬ ("support" ∈ prodKeys emptySrc) ∧
    prodKeys c1ContactSrc ≠ prodKeys emptySrc := by
  refine ⟨?_, ?_, ?_⟩ <;> decide

/-- C1 (amended): for any source the top-level keys of the output are
exactly `version`, `schema`, `product`, independent of the input; when
servicelevels, servers and models are all empty (and no contact or
top-level quality object is present) the mapper still returns a value
(raises no error) whose product object has exactly the four base
sections `contract`, `details`, `dataHolder`, `dataAccess` — the
conditional sections are omitted rather than emitted as empty
collections. -/
theorem c1_amended (s : DataContractSpecification) :
    topKeys s = ["version", "schema", "product"] ∧
    (svcTruthy s.servicelevels = false → s.servers = [] → s.models = [] →
      s.info.contact = none → s.quality = none →
      prodKeys s = ["contract", "details", "dataHolder", "dataAccess"]) := by
  refine ⟨rfl, fun hsl hsrv hm hc hq => ?_⟩
  rw [prodKeys_eq, hc, hq]
  cases hsv : s.servicelevels with
  | none => simp [supportSection, qualitySection, slaSection]
  | some v =>
    rw [hsv] at hsl
    cases v with
    | dict es =>
      cases es with
      | nil => simp [supportSection, qualitySection, slaSection, svcTruthy]
      | cons a t => simp [svcTruthy] at hsl
    | single sl => simp [svcTruthy] at hsl

/-- C1 witness: the amended claim evaluated at the fully-empty source. -/
theorem c1_witness :
    topKeys emptySrc = ["version", "schema", "product"] ∧
    prodKeys emptySrc = ["contract", "details", "dataHolder", "dataAccess"] :=
  ⟨(c1_amended emptySrc).1, (c1_amended emptySrc).2 rfl rfl rfl rfl rfl⟩

/-- C2: the mapper is deterministic and side-effect free — the
state-passing rendering of the code returns exactly the output of the
pure mapping function, and a second call on the (unchanged) source
state returned by the first call yields a structurally identical
destination document. -/
theorem c2_deterministic (s : DataContractSpecification) :
    (to_odps_run s).snd = to_odps s ∧
    (to_odps_run ((to_odps_run s).fst)).snd = (to_odps_run s).snd :=
  ⟨rfl, rfl⟩

/-- C3: a servicelevels entry under the key `foobar` — not one of the
seven fixed dimension names — still produces an SLA entry, and the
emitted unit is the literal `"hours"` rather than the source
sub-object's `unit` attribute `"days"`, refuting both the fixed-name
gating and the claimed unit derivation. -/
theorem c3_counterexample :
    slaDims c3Src = [J.str "Foobar"] ∧
    slaUnits c3Src = [some (J.str "hours")] ∧
    slaUnits c3Src ≠ [some (J.str "days")] := by
  refine ⟨rfl, rfl, fun h => ?_⟩
  rw [show slaUnits c3Src = [some (J.str "hours")] from rfl] at h
  simp at h

/-- C3 (amended): the mapper emits one SLA entry per key of the
servicelevels mapping — whatever the key, not only the seven fixed
dimension names — in mapping order, so the SLA list length equals the
number of keys; each entry's dimension is the capitalized key; the
objective is the `percentage` attribute if present else the `threshold`
attribute, with unit the literal `"percentage"` respectively `"hours"`,
and no objective/unit otherwise; the source `unit` and `interval`
attributes are ignored. -/
theorem c3_amended (s : DataContractSpecification) (es : List (String × ServiceLevel))
    (hsl : s.servicelevels = some (.dict es)) (hne : es ≠ []) :
    slaDims s = es.map (fun e => J.str (pyCapitalize e.1)) ∧
    slaObjectives s = es.map (fun e =>
      match e.2.percentage with
      | some p => some (J.str p)
      | none => match e.2.threshold with
        | some t => some (J.str t)
        | none => none) ∧
    slaUnits s = es.map (fun e =>
      match e.2.percentage with
      | some _ => some (J.str "percentage")
      | none => match e.2.threshold with
        | some _ => some (J.str "hours")
        | none => none) := by
  have hv : svcTruthy (some (.dict es)) = true := by
    cases es with
    | nil => exact absurd rfl hne
    | cons a t => rfl
  have hsla : slaOf s = some (.arr (es.map (fun e => slaItem e.1 e.2))) := by
    rw [slaOf_eq, hsl, sla_lookup_found _ hv]
    rfl
  refine ⟨?_, ?_, ?_⟩
  · simp only [slaDims, hsla, List.map_map]
    exact List.map_congr_left fun a _ => slaItem_dimension a.1 a.2
  · simp only [slaObjectives, hsla, List.map_map]
    exact List.map_congr_left fun a _ => slaItem_objective a.1 a.2
  · simp only [slaUnits, hsla, List.map_map]
    exact List.map_congr_left fun a _ => slaItem_unit a.1 a.2

/-- C3 witness: the amended claim at a one-entry availability dict. -/
theorem c3_witness :
    slaDims c3aSrc = [J.str "Availability"] ∧
    slaObjectives c3aSrc = [some (J.str "99.9")] ∧
    slaUnits c3aSrc = [some (J.str "percentage")] := by
  have h := c3_amended c3aSrc [("availability", { percentage := some "99.9" })]
    rfl (by simp)
  exact h

/-- C4: with a server whose schema-reference and endpoint fields are
populated, the emitted data-access object has only the `type` and
`format` keys — no `specification` or `documentationURL` field is ever
produced; and with no servers the data-access object is the non-empty
defaults object, not an empty object. -/
theorem c4_counterexample :
    jkeys (dataAccessOf c4Src) = ["type", "format"] ∧
    jget (dataAccessOf c4Src) "specification" = none ∧
    jget (dataAccessOf c4Src) "documentationURL" = none ∧
    dataAccessOf emptySrc ≠ J.obj [] := by
  refine ⟨rfl, rfl, rfl, fun h => absurd (congrArg jkeys h) (by decide)⟩

/-- C4 (amended): the data-access section is always present and equals
the object derived from the head of the servers mapping in insertion
order — only `type` and `format`, with defaults `API`/`JSON` — so later
servers are never consulted, schema-reference/endpoint fields are not
mapped, and with no servers the defaults object (key present, not an
empty object) is emitted. -/
theorem c4_amended (s : DataContractSpecification) :
    dataAccessOf s = dataAccessSpec s.servers := by
  have h1 : dataAccessOf s = dataAccessSection s.servers := by
    unfold dataAccessOf productOf jgetD jget to_odps
    cases s.info.contact <;> rfl
  rw [h1]
  cases hs : s.servers with
  | nil => rfl
  | cons a l =>
    obtain ⟨k, srv⟩ := a
    obtain ⟨t, f, loc, ep, d⟩ := srv
    cases t <;> cases f <;> rfl

/-- C5: the source `c5Src` carries a field-level quality rule with both
`mustBeGreaterThan = 3` and `mustBeGreaterThanOrEqualTo = 1`, yet the
output contains no quality entry at all — its product keys are just the
four base sections and the `dataQuality` key is absent — so no entry
with objective 3 is emitted. -/
theorem c5_counterexample :
    prodKeys c5Src = ["contract", "details", "dataHolder", "dataAccess"] ∧
    jget (productOf c5Src) "dataQuality" = none :=
  ⟨rfl, rfl⟩

/-- C5 (amended): model- and field-level quality rules are ignored by
the mapper — erasing every such rule from the source leaves the output
unchanged, so no objective is ever computed from
`mustBe`/`mustBeGreaterThan`/`mustBeGreaterThanOrEqualTo`; a
`dataQuality` section is emitted only when the top-level quality object
is present with a non-empty `specification` (otherwise the key is
absent), and then it is a single entry of the fixed shape
`qualityItemSpec`: dimension the literal `Accuracy`, monitoring built
from the quality object's type tag (default `custom`) and its
specification text, and no `objective` field. -/
theorem c5_amended (s : DataContractSpecification) :
    to_odps (stripQualityRules s) = to_odps s ∧
    (qualityTruthy s.quality = false → jget (productOf s) "dataQuality" = none) ∧
    (∀ q sp, s.quality = some q → q.specification = some sp → sp ≠ "" →
      jget (productOf s) "dataQuality" = some (.arr [qualityItemSpec q sp]) ∧
      dqDims s = [J.str "Accuracy"] ∧
      dqObjectives s = [none]) := by
  refine ⟨?_, ?_, ?_⟩
  · obtain ⟨i, inf, tg, srv, mdl, q, sv, td⟩ := s
    have h1 : ((mdl.map (fun e => (e.1, stripModelQuality e.2))).map modelSchema)
        = mdl.map modelSchema := by
      rw [List.map_map]
      exact List.map_congr_left fun a _ => modelSchema_strip a
    have h2 : (mdl.map (fun e => (e.1, stripModelQuality e.2))).isEmpty = mdl.isEmpty :=
      isEmpty_map _ _
    simp only [to_odps, stripQualityRules, detailsEnSection, contractSection,
      dataHolderSection, h1, h2]
  · intro hq
    rw [productOf_eq]
    show lookupA _ "dataQuality" = _
    rw [lookupA_append, lookupA_append, lookupA_append, lookupA_append]
    rw [support_lookup_none _ _ (by decide), sla_lookup_none _ _ (by decide),
      quality_lookup_not_truthy _ hq]
    simp [lookupA, oOr]
  · intro q sp hq hsp hne
    have hfull : jget (productOf s) "dataQuality" = some (.arr [qualityItemSpec q sp]) := by
      rw [productOf_eq]
      show lookupA _ "dataQuality" = _
      rw [lookupA_append, lookupA_append, lookupA_append, lookupA_append]
      rw [support_lookup_none _ _ (by decide), sla_lookup_none _ _ (by decide),
        hq, quality_lookup_truthy q sp hsp hne]
      simp [lookupA, oOr]
    refine ⟨hfull, ?_, ?_⟩
    · simp only [dqDims, hfull, List.map]
      rfl
    · simp only [dqObjectives, hfull, List.map]
      rfl

/-- C5 witness: the amended claim at the source carrying the rule with
`mustBeGreaterThan = 3` and `mustBeGreaterThanOrEqualTo = 1` (no entry
emitted) and at a source with a populated top-level quality object (one
`Accuracy` entry with no objective). -/
theorem c5_witness :
    to_odps (stripQualityRules c5Src) = to_odps c5Src ∧
    jget (productOf c5Src) "dataQuality" = none ∧
    jget (productOf c5qSrc) "dataQuality" =
      some (.arr [qualityItemSpec { type := some "sodacl", specification := some "checks" } "checks"]) ∧
    dqDims c5qSrc = [J.str "Accuracy"] ∧
    dqObjectives c5qSrc = [none] :=
  ⟨(c5_amended c5Src).1, (c5_amended c5Src).2.1 rfl,
   ((c5_amended c5qSrc).2.2 _ "checks" rfl rfl (by decide)).1,
   ((c5_amended c5qSrc).2.2 _ "checks" rfl rfl (by decide)).2.1,
   ((c5_amended c5qSrc).2.2 _ "checks" rfl rfl (by decide)).2.2⟩

/-- C6: the billing string is split on whitespace into at most three
positional tokens (price, currency, unit), positions beyond the token
count being `none`: the string `9.95 USD megabyte` yields the three
tokens, the empty string yields all `none`, and the parse is a total
function of the token list. -/
theorem c6_billing :
    parse_billing "9.95 USD megabyte" = (some "9.95", some "USD", some "megabyte") ∧
    parse_billing "" = (none, none, none) ∧
    ∀ b : String, parse_billing b =
      ((wsTokens b).get? 0, (wsTokens b).get? 1, (wsTokens b).get? 2) := by
  refine ⟨rfl, rfl, fun b => ?_⟩
  rcases h : wsTokens b with _ | ⟨p, _ | ⟨c, _ | ⟨u, rest⟩⟩⟩ <;>
    simp [parse_billing, h]

/-- C7: the output's top-level `version` and `schema` entries are the
fixed constants `3.0` and the ODPS schema URL, for every source
document. -/
theorem c7_constants (s : DataContractSpecification) :
    jget (to_odps s) "version" = some (J.str "3.0") ∧
    jget (to_odps s) "schema" =
      some (J.str "https://opendataproducts.org/dev/schema/odps.yaml") :=
  ⟨rfl, rfl⟩

/-- C8: the mapper never mutates the source document — in the
state-passing rendering of the code, the source state returned after
the call is the source that was passed in. -/
theorem c8_no_mutation (s : DataContractSpecification) :
    (to_odps_run s).fst = s :=
  rfl

/-- C9: for every source document the `details.en` section has
`visibility` equal to the literal `public` and `categories` equal to
the empty list. -/
theorem c9_fixed_details (s : DataContractSpecification) :
    jget (detailsEnOf s) "visibility" = some (J.str "public") ∧
    jget (detailsEnOf s) "categories" = some (J.arr []) := by
  refine ⟨?_, ?_⟩ <;>
    unfold detailsEnOf productOf to_odps detailsEnSection jgetD jget <;>
    cases h : s.models <;> rfl

/-- C10: when `servicelevels` is a single non-mapping object, the
mapper wraps it under the key `servicelevel` and emits exactly one SLA
entry whose dimension is the literal `Servicelevel`. -/
theorem c10_single_wrap (s : DataContractSpecification) (sl : ServiceLevel)
    (h : s.servicelevels = some (.single sl)) :
    slaDims s = [J.str "Servicelevel"] := by
  have hsla : slaOf s = some (.arr [slaItem "servicelevel" sl]) := by
    rw [slaOf_eq, h, sla_lookup_found (.single sl) rfl]
    rfl
  simp only [slaDims, hsla, List.map]
  rw [slaItem_dimension]
  rfl

/-- C10 witness: the single-object wrap at a defaulted service level. -/
theorem c10_witness : slaDims c10Src = [J.str "Servicelevel"] :=
  c10_single_wrap c10Src {} rfl

end ODPS
